import Mathlib

/-!
Shallow embedding of the pt-qbit-web backend core
(`src/backend/precision_limit_engine.py` and `src/backend/auto_remove_engine.py`)
and verification of the frozen claims about it.

Modelling conventions:
* Python floats are modelled as exact rationals (`ℚ`); Python ints as `ℤ`.
* Python `int(x)` (truncation toward zero) is `py_trunc`; Python `//`
  (floor division) is `Int.fdiv`.
* Mutating methods become functions returning the updated value.
* External collaborators (qB client RPC, site scraper, store) are modelled as
  explicit inputs describing what each call would return on the tick under
  consideration (`none` = the call raised or yielded nothing).
* Log output, statistics counters, and the numeric/emoji interpolation inside
  human-readable `reason` strings are elided; `reason` keeps only the phase tag
  prefix, which no claim inspects.
-/

namespace PtQbit

/-- `safe_div` from `precision_limit_engine.py`: returns `default` when the
denominator is zero or tiny (absolute value below `1e-10`). -/
def safe_div (a b default : ℚ) : ℚ :=
  if b = 0 ∨ |b| < 1 / 10000000000 then default else a / b

/-- `clamp(value, min_val, max_val) = max(min_val, min(max_val, value))`. -/
def clamp (value min_val max_val : ℚ) : ℚ :=
  max min_val (min max_val value)

/-- Python `int(q)` on a float: truncation toward zero. -/
def py_trunc (q : ℚ) : Int :=
  if 0 ≤ q then ⌊q⌋ else -⌊-q⌋

/-- Announce-cycle phase (`'warmup' | 'catch' | 'steady' | 'finish'` strings in
the source). -/
inductive Phase where
  | warmup
  | catch
  | steady
  | finish
deriving DecidableEq

/-- `LimitConfig.FINISH_TIME`. -/
def FINISH_TIME : ℚ := 30

/-- `LimitConfig.STEADY_TIME`. -/
def STEADY_TIME : ℚ := 120

/-- `LimitConfig.MIN_LIMIT`. -/
def MIN_LIMIT : Int := 4096

/-- `LimitConfig.MAX_LIMIT`. -/
def MAX_LIMIT : Int := 500 * 1024 * 1024

/-- One row of `LimitConfig.PID_PARAMS`. -/
structure PidParams where
  kp : ℚ
  ki : ℚ
  kd : ℚ
  headroom : ℚ
deriving DecidableEq

/-- `LimitConfig.PID_PARAMS` (table P).  The phase key is total here, so the
Python-side `.get(phase, PID_PARAMS['catch'])` fallback can never fire. -/
def PID_PARAMS : Phase → PidParams
  | .warmup => ⟨3/10, 1/20, 1/50, 103/100⟩
  | .catch  => ⟨1/2, 1/10, 1/20, 51/50⟩
  | .steady => ⟨3/5, 3/20, 2/25, 201/200⟩
  | .finish => ⟨4/5, 1/5, 3/25, 1001/1000⟩

/-- Free function `get_phase(time_left, cycle_synced)`. -/
def get_phase (time_left : ℚ) (cycle_synced : Bool) : Phase :=
  if !cycle_synced then .warmup
  else if time_left ≤ FINISH_TIME then .finish
  else if time_left ≤ STEADY_TIME then .steady
  else .catch

/-- `PIDController` mutable fields. -/
structure PIDController where
  integral : ℚ
  last_error : ℚ
  last_time : ℚ
  phase : Phase
deriving DecidableEq

/-- `PIDController.__init__`. -/
def PIDController.init : PIDController :=
  { integral := 0, last_error := 0, last_time := 0, phase := .warmup }

/-- `PIDController.set_phase`: a phase change halves the integral. -/
def PIDController.set_phase (c : PIDController) (phase : Phase) : PIDController :=
  if phase ≠ c.phase then
    { c with integral := c.integral * (1/2), phase := phase }
  else c

/-- `PIDController.update`: returns the clamped output together with the
mutated controller. -/
def PIDController.update (c : PIDController) (target actual now : ℚ) :
    ℚ × PIDController :=
  let params := PID_PARAMS c.phase
  let error := safe_div (target - actual) (max target 1) 0
  let dt := if c.last_time > 0 then now - c.last_time else 1
  let integral := clamp (c.integral + error * dt) (-(1/2)) (1/2)
  let derivative := if dt > 0 then (error - c.last_error) / dt else 0
  let output := 1 + params.kp * error + params.ki * integral + params.kd * derivative
  (clamp output (3/10) 3,
   { c with integral := integral, last_error := error, last_time := now })

/-- `PIDController.reset` (keeps the phase, zeroes the rest). -/
def PIDController.reset (c : PIDController) : PIDController :=
  { c with integral := 0, last_error := 0, last_time := 0 }

/-- `KalmanFilter` mutable fields (process/measurement noises are the fixed
constants `q_speed = 0.1`, `q_accel = 0.05`, `r = 0.5`). -/
structure KalmanFilter where
  speed : ℚ
  acceleration : ℚ
  p_speed : ℚ
  p_accel : ℚ
  last_time : ℚ
deriving DecidableEq

/-- `KalmanFilter.__init__`. -/
def KalmanFilter.init : KalmanFilter :=
  { speed := 0, acceleration := 0, p_speed := 1, p_accel := 1, last_time := 0 }

/-- `KalmanFilter.update`. -/
def KalmanFilter.update (k : KalmanFilter) (measured_speed now : ℚ) : KalmanFilter :=
  if k.last_time ≤ 0 then
    { k with speed := measured_speed, last_time := now }
  else
    let dt := now - k.last_time
    if dt ≤ 0 then k
    else
      let predicted_speed := k.speed + k.acceleration * dt
      let p_speed := k.p_speed + 1/10 + k.p_accel * dt * dt
      let p_accel := k.p_accel + 1/20
      let innovation := measured_speed - predicted_speed
      let kk := p_speed / (p_speed + 1/2)
      { speed := predicted_speed + kk * innovation,
        acceleration := k.acceleration + (1/10) * innovation / dt,
        p_speed := p_speed * (1 - kk),
        p_accel := p_accel,
        last_time := now }

/-- `KalmanFilter.predict_upload`. -/
def KalmanFilter.predict_upload (k : KalmanFilter) (time_left : ℚ) : ℚ :=
  k.speed * time_left + (1/2) * k.acceleration * time_left * time_left

/-- `TorrentLimitState` dataclass with its field defaults. -/
structure TorrentLimitState where
  hash : String
  name : String := ""
  tracker : String := ""
  instance_id : Int := 0
  cycle_start : ℚ := 0
  cycle_uploaded_start : Int := 0
  cycle_index : Int := 0
  cycle_synced : Bool := false
  reannounce_time : ℚ := 0
  cached_time_left : ℚ := 1800
  reannounce_source : String := "unknown"
  target_speed : Int := 50 * 1024 * 1024
  last_limit : Int := -1
  last_limit_reason : String := ""
  site_id : Option Int := none
  tid : Option Int := none
  pid : PIDController := PIDController.init
  kalman : KalmanFilter := KalmanFilter.init
  last_log_time : ℚ := 0
deriving DecidableEq

/-- `TorrentLimitState.get_phase(now)`: derives the time left from the state
(`reannounce_time` if positive, else `cached_time_left`). -/
def TorrentLimitState.get_phase (s : TorrentLimitState) (now : ℚ) : Phase :=
  if !s.cycle_synced then .warmup
  else
    let time_left :=
      if s.reannounce_time > 0 then max 0 (s.reannounce_time - now)
      else s.cached_time_left
    PtQbit.get_phase time_left s.cycle_synced

/-- `TorrentLimitState.get_cycle_uploaded`. -/
def TorrentLimitState.get_cycle_uploaded (s : TorrentLimitState)
    (current_uploaded : Int) : Int :=
  max 0 (current_uploaded - s.cycle_uploaded_start)

/-- `TorrentLimitState.new_cycle`. -/
def TorrentLimitState.new_cycle (s : TorrentLimitState) (now : ℚ)
    (current_uploaded : Int) (time_left : ℚ) : TorrentLimitState :=
  { s with
    cycle_start := now,
    cycle_uploaded_start := current_uploaded,
    cycle_index := s.cycle_index + 1,
    pid := s.pid.reset,
    reannounce_time := now + time_left,
    cached_time_left := time_left }

/-- What the external collaborators would answer during one call of
`_get_reannounce_time`:
* `helper_available`: the site-helper manager is present, `PT_HELPER_AVAILABLE`
  holds, `get_helper_by_tracker` found a helper and it is `enabled`;
* `search_tid`: the `(tid, site_id)` of a successful `search_tid_by_hash`
  whose `info.tid` is truthy, else `none`;
* `helper_reannounce`: result of `helper.get_reannounce_time(tid)` (`none`
  when it returned `None` or raised);
* `qb_reannounce`: `props.get('reannounce', 0) or 0` from
  `client.torrents_properties` (`none` when the RPC raised). -/
structure OracleEnv where
  helper_available : Bool := false
  search_tid : Option (Int × Option Int) := none
  helper_reannounce : Option ℚ := none
  qb_reannounce : Option ℚ := none
deriving DecidableEq

/-- Python truthiness of the `Optional[int]` field `state.tid`
(`if state.tid:`): present and nonzero. -/
def py_truthy_tid : Option Int → Bool
  | some t => t != 0
  | none => false

/-- Method-1 portion of `_get_reannounce_time` (the site-scraper path):
caches `tid`/`site_id` on first resolution and returns the raw scraper answer
when the helper chain reached `get_reannounce_time`. -/
def oracle_site (env : OracleEnv) (s : TorrentLimitState) :
    Option ℚ × TorrentLimitState :=
  if env.helper_available then
    let s1 :=
      if s.tid.isNone then
        match env.search_tid with
        | some (t, sid) => { s with tid := some t, site_id := sid }
        | none => s
      else s
    if py_truthy_tid s1.tid then (env.helper_reannounce, s1) else (none, s1)
  else (none, s)

/-- `PrecisionLimitEngine._get_reannounce_time`: returns
`(time_left, source_tag, mutated state)`.  Statistics counters are elided. -/
def _get_reannounce_time (env : OracleEnv) (s0 : TorrentLimitState) (now : ℚ) :
    ℚ × String × TorrentLimitState :=
  let time_left := s0.cached_time_left
  let siteStep := oracle_site env s0
  let s := siteStep.2
  let siteAccept : Option ℚ :=
    match siteStep.1 with
    | some r => if r > 0 then some r else none
    | none => none
  match siteAccept with
  | some r => (r, "site", s)
  | none =>
    let qbAccept : Option ℚ :=
      match env.qb_reannounce with
      | some r => if 0 < r ∧ r < 86400 then some r else none
      | none => none
    match qbAccept with
    | some r => (r, "qb_api", { s with reannounce_time := now + r })
    | none =>
      if s.reannounce_time > 0 then
        (max 0 (s.reannounce_time - now), "estimated", s)
      else
        (time_left, "cached", s)

/-- The final clamp-and-round block of `_calculate_limit`
(`if limit > 0: limit = max(MIN, min(MAX, limit)); step = 1024 if finish else
4096; limit = int((limit + step // 2) // step) * step`). -/
def clamp_round (limit : Int) (phase : Phase) : Int :=
  if limit > 0 then
    let c := max MIN_LIMIT (min MAX_LIMIT limit)
    let step : Int := if phase = Phase.finish then 1024 else 4096
    (Int.fdiv (c + Int.fdiv step 2) step) * step
  else limit

/-- `PrecisionLimitEngine._calculate_limit`: returns
`(limit, reason, mutated state)`.  The mutation is confined to `state.pid`
(`set_phase` and, when `time_left > 0`, `update`). -/
def _calculate_limit (s : TorrentLimitState) (current_uploaded : Int)
    (now time_left : ℚ) : Int × String × TorrentLimitState :=
  let phase := s.get_phase now
  let pid0 := s.pid.set_phase phase
  let elapsed := now - s.cycle_start
  let total_cycle_time := elapsed + time_left
  let target_total := (s.target_speed : ℚ) * total_cycle_time
  let cycle_uploaded := s.get_cycle_uploaded current_uploaded
  let progress := safe_div (cycle_uploaded : ℚ) target_total 0
  if time_left ≤ 0 then
    (-1, "汇报中", { s with pid := pid0 })
  else
    let need_upload := max 0 (target_total - (cycle_uploaded : ℚ))
    let required_speed := need_upload / time_left
    let pidStep := pid0.update target_total (cycle_uploaded : ℚ) now
    let pid_output := pidStep.1
    let headroom := (PID_PARAMS phase).headroom
    let s1 := { s with pid := pidStep.2 }
    let pair : Int × String :=
      match phase with
      | .finish =>
        let predicted_ratio :=
          safe_div ((cycle_uploaded : ℚ) + s.kalman.predict_upload time_left)
            target_total 0
        let correction :=
          if predicted_ratio > 501/500 then
            max (4/5) (1 - (predicted_ratio - 1) * 3)
          else if predicted_ratio < 499/500 then
            min (6/5) (1 + (1 - predicted_ratio) * 3)
          else 1
        (py_trunc (required_speed * pid_output * correction), "F")
      | .steady =>
        (py_trunc (required_speed * headroom * pid_output), "S")
      | .catch =>
        if required_speed > (s.target_speed : ℚ) * 5 then (-1, "C:欠速")
        else (py_trunc (required_speed * headroom * pid_output), "C")
      | .warmup =>
        if progress ≥ 1 then (MIN_LIMIT, "W:超")
        else if progress ≥ 4/5 then
          (py_trunc (required_speed * (101/100) * pid_output), "W:精控")
        else if progress ≥ 1/2 then
          (py_trunc (required_speed * (21/20)), "W:温控")
        else (-1, "W:预热")
    (clamp_round pair.1 phase, pair.2, s1)

/-- The engine's per-torrent state table `self._states : Dict[str, ...]`,
modelled as an association list keyed by torrent hash. -/
def StateTable := List (String × TorrentLimitState)

/-- Dictionary lookup. -/
def StateTable.find? : StateTable → String → Option TorrentLimitState
  | [], _ => none
  | (k, v) :: rest, h => if k = h then some v else StateTable.find? rest h

/-- Dictionary insert-or-update (`self._states[hash] = state`). -/
def StateTable.insert : StateTable → String → TorrentLimitState → StateTable
  | [], h, s => [(h, s)]
  | (k, v) :: rest, h, s =>
    if k = h then (k, s) :: rest else (k, v) :: StateTable.insert rest h s

/-- The fields of a speed rule consulted by `_process_torrent`
(`rule.get('target_speed_kib', 51200)`, `rule.get('safety_margin', 0.98)`);
the dataclass defaults stand in for the dictionary-lookup defaults. -/
structure Rule where
  target_speed_kib : ℚ := 51200
  safety_margin : ℚ := 49/50
deriving DecidableEq

/-- The torrent-dict fields consulted by `_process_torrent`. -/
structure TorrentInfo where
  hash : String
  name : String := ""
  tracker : String := ""
  uploaded : Int := 0
  upspeed : ℚ := 0
deriving DecidableEq

/-- The limit-application block of `_process_torrent` (the
`if new_limit != state.last_limit:` statement).  Returns the updated state and
the list of `set_upload_limit` RPC calls issued, as `(hash, limit)` pairs;
`rpc_ok = false` models the RPC raising, in which case the call was issued but
`last_limit`/`last_limit_reason` are not recorded. -/
def apply_limit (st : TorrentLimitState) (hash : String) (new_limit : Int)
    (reason : String) (rpc_ok : Bool) : TorrentLimitState × List (String × Int) :=
  if new_limit ≠ st.last_limit then
    if rpc_ok then
      ({ st with last_limit := new_limit, last_limit_reason := reason },
       [(hash, new_limit)])
    else (st, [(hash, new_limit)])
  else (st, [])

/-- Result of processing one or more torrents: the new state table and the
`set_upload_limit` calls issued. -/
structure TickResult where
  states : StateTable
  rpc_calls : List (String × Int)

/-- The `TorrentLimitState(...)` constructor call creating a fresh state on
the first tick that observes a torrent (`_process_torrent`, creation branch). -/
def fresh_state (instance_id : Int) (torrent : TorrentInfo) (target_speed : Int)
    (now : ℚ) : TorrentLimitState :=
  { hash := torrent.hash,
    name := torrent.name.take 30,
    tracker := torrent.tracker,
    instance_id := instance_id,
    cycle_start := now,
    cycle_uploaded_start := torrent.uploaded,
    target_speed := target_speed }

/-- `PrecisionLimitEngine._process_torrent`. -/
def _process_torrent (states : StateTable) (instance_id : Int)
    (torrent : TorrentInfo) (rule : Rule) (env : OracleEnv) (rpc_ok : Bool)
    (now : ℚ) : TickResult :=
  let hash := torrent.hash
  let target_speed := py_trunc (rule.target_speed_kib * 1024 * rule.safety_margin)
  let states1 :=
    if (states.find? hash).isNone then
      states.insert hash (fresh_state instance_id torrent target_speed now)
    else states
  match states1.find? hash with
  | none => ⟨states1, []⟩
  | some st0 =>
    let st := { st0 with
      target_speed := target_speed,
      tracker := torrent.tracker,
      instance_id := instance_id,
      kalman := st0.kalman.update torrent.upspeed now }
    let current_uploaded := torrent.uploaded
    let oracleStep := _get_reannounce_time env st now
    let time_left := oracleStep.1
    let st := { oracleStep.2.2 with reannounce_source := oracleStep.2.1 }
    let st :=
      if st.cycle_synced && decide (time_left > st.cached_time_left + 30) then
        st.new_cycle now current_uploaded time_left
      else st
    let st := { st with cached_time_left := time_left }
    let st :=
      if !st.cycle_synced ∧ time_left > 0 then
        { st with cycle_synced := true, cached_time_left := time_left }
      else st
    let calcStep := _calculate_limit st current_uploaded now time_left
    let new_limit := calcStep.1
    let reason := calcStep.2.1
    let st := calcStep.2.2
    let applyStep := apply_limit st hash new_limit reason rpc_ok
    let st := applyStep.1
    let st :=
      if now - st.last_log_time > 20 then { st with last_log_time := now }
      else st
    ⟨states1.insert hash st, applyStep.2⟩

/-- One torrent's worth of tick input inside `_process_all`'s inner loop:
the torrent dict, whether `_should_limit_torrent` accepted it, the rule
`_find_rule` matched (or `none`), the oracle answers, and whether the
`set_upload_limit` RPC would succeed. -/
structure TickItem where
  instance_id : Int
  torrent : TorrentInfo
  should : Bool
  rule : Option Rule
  env : OracleEnv
  rpc_ok : Bool

/-- The per-torrent inner loop of `PrecisionLimitEngine._process_all`:
torrents failing `_should_limit_torrent` or matching no rule are skipped,
the rest go through `_process_torrent` with the state table threaded through. -/
def _process_all (states : StateTable) (items : List TickItem) (now : ℚ) :
    TickResult :=
  match items with
  | [] => ⟨states, []⟩
  | item :: rest =>
    match item.should, item.rule with
    | true, some rule =>
      let r := _process_torrent states item.instance_id item.torrent rule
        item.env item.rpc_ok now
      let r2 := _process_all r.states rest now
      ⟨r2.states, r.rpc_calls ++ r2.rpc_calls⟩
    | _, _ => _process_all states rest now

/-- The dictionary written by `_save_states_to_db` for one state, plus the
`updated_at` stamp under which the store hands it back. -/
structure SavedRow where
  hash : String
  name : String
  tracker : String
  instance_id : Int
  site_id : Option Int
  tid : Option Int
  cycle_index : Int
  cycle_start : ℚ
  cycle_uploaded_start : Int
  cycle_synced : Bool
  target_speed : Int
  last_limit : Int
  reannounce_time : ℚ
  cached_time_left : ℚ
  updated_at : ℚ
deriving DecidableEq

/-- The `db.save_torrent_limit_state` payload built by `_save_states_to_db`
for one state; `updated_at` is stamped by the store at save time. -/
def _save_state (s : TorrentLimitState) (updated_at : ℚ) : SavedRow :=
  { hash := s.hash,
    name := s.name,
    tracker := s.tracker,
    instance_id := s.instance_id,
    site_id := s.site_id,
    tid := s.tid,
    cycle_index := s.cycle_index,
    cycle_start := s.cycle_start,
    cycle_uploaded_start := s.cycle_uploaded_start,
    cycle_synced := s.cycle_synced,
    target_speed := s.target_speed,
    last_limit := s.last_limit,
    reannounce_time := s.reannounce_time,
    cached_time_left := s.cached_time_left,
    updated_at := updated_at }

/-- The per-row body of `_restore_states_from_db`: rows older than 86400 s are
discarded, the rest are rebuilt with fresh `PIDController`/`KalmanFilter`
(and dataclass defaults for the non-persisted fields). -/
def restore_row (now : ℚ) (data : SavedRow) : Option TorrentLimitState :=
  if now - data.updated_at > 86400 then none
  else some
    { hash := data.hash,
      name := data.name,
      tracker := data.tracker,
      instance_id := data.instance_id,
      site_id := data.site_id,
      tid := data.tid,
      cycle_index := data.cycle_index,
      cycle_start := data.cycle_start,
      cycle_uploaded_start := data.cycle_uploaded_start,
      cycle_synced := data.cycle_synced,
      target_speed := data.target_speed,
      last_limit := data.last_limit,
      reannounce_time := data.reannounce_time,
      cached_time_left := data.cached_time_left }

/-- `PrecisionLimitEngine._restore_states_from_db` over a list of saved rows. -/
def _restore_states_from_db (now : ℚ) (rows : List SavedRow) : StateTable :=
  rows.foldl
    (fun acc data =>
      match restore_row now data with
      | some st => acc.insert data.hash st
      | none => acc)
    []

/-- The torrent-dict fields consulted by `AutoRemoveEngine._check_condition`
(with the `.get(..., 0)` defaults). -/
structure RemoveTorrent where
  upspeed : ℚ := 0
  progress : ℚ := 0
  seeding_time : ℚ := 0
  ratio : ℚ := 0
  size : Int := 0
  last_activity : ℚ := 0
deriving DecidableEq

/-- A remove rule `condition` dictionary: one optional field per predicate key
(`'key' in condition` becomes `isSome`); `completed` models the truthiness
test `condition.get('completed')`. -/
structure RemoveCondition where
  free_space_lt : Option Int := none
  upload_speed_lt : Option ℚ := none
  completed : Bool := false
  seeding_time_gt : Option ℚ := none
  ratio_gt : Option ℚ := none
  size_gt : Option Int := none
  no_peers_time_gt : Option ℚ := none
deriving DecidableEq

/-- `AutoRemoveEngine._check_condition` (the `time.time()` it reads is passed
in as `now`).  Each early `return False` of the source becomes one conjunct. -/
def _check_condition (torrent : RemoveTorrent) (condition : RemoveCondition)
    (free_space : Int) (now : ℚ) : Bool :=
  (match condition.free_space_lt with
   | some v => decide (free_space < v)
   | none => true) &&
  (match condition.upload_speed_lt with
   | some v => decide (torrent.upspeed < v)
   | none => true) &&
  (!condition.completed || decide (torrent.progress ≥ 1)) &&
  (match condition.seeding_time_gt with
   | some v => decide (torrent.seeding_time > v)
   | none => true) &&
  (match condition.ratio_gt with
   | some v => decide (torrent.ratio > v)
   | none => true) &&
  (match condition.size_gt with
   | some v => decide (torrent.size > v)
   | none => true) &&
  (match condition.no_peers_time_gt with
   | some v =>
     if torrent.last_activity > 0 then decide (now - torrent.last_activity > v)
     else true
   | none => true)

/-- The `AutoRemoveEngine` configuration fields set by `__init__`,
`_load_config`, and `set_config`. -/
structure RemoveConfig where
  enabled : Bool := false
  check_interval : Int := 60
  sleep_between : Int := 5
  reannounce_before_delete : Bool := true
  delete_files : Bool := true
deriving DecidableEq

/-- What `db.get_config` would answer for the auto-remove keys.  The two
integer keys are pre-parsed: `none` stands for a missing/empty value or one
on which `int(...)` raises (the source's `except` path), `some n` for a value
parsing to `n`. -/
structure StoreConfig where
  auto_remove_enabled : Option String := none
  auto_remove_interval : Option Int := none
  auto_remove_sleep : Option Int := none
  auto_remove_reannounce : Option String := none
  auto_remove_delete_files : Option String := none
deriving DecidableEq

/-- `AutoRemoveEngine._load_config`. -/
def _load_config (sc : StoreConfig) : RemoveConfig :=
  { enabled := sc.auto_remove_enabled == some "true",
    check_interval := sc.auto_remove_interval.getD 60,
    sleep_between := sc.auto_remove_sleep.getD 5,
    reannounce_before_delete := sc.auto_remove_reannounce != some "false",
    delete_files := sc.auto_remove_delete_files != some "false" }

/-- `AutoRemoveEngine.set_config` (each keyword argument is `none` when left
at its `None` default; the mirrored `db.set_config` writes are elided). -/
def set_config (cfg : RemoveConfig) (interval sleep_between : Option Int)
    (reannounce enabled delete_files : Option Bool) : RemoveConfig :=
  let cfg :=
    match interval with
    | some i => { cfg with check_interval := max 30 (min 3600 i) }
    | none => cfg
  let cfg :=
    match sleep_between with
    | some s => { cfg with sleep_between := max 1 (min 60 s) }
    | none => cfg
  let cfg :=
    match reannounce with
    | some b => { cfg with reannounce_before_delete := b }
    | none => cfg
  let cfg :=
    match enabled with
    | some b => { cfg with enabled := b }
    | none => cfg
  match delete_files with
  | some b => { cfg with delete_files := b }
  | none => cfg

/-- Iterating the limit-application block over consecutive ticks that compute
the same limit, with the RPC succeeding; returns the final state and the total
number of `set_upload_limit` calls issued. -/
def apply_limit_times (hash : String) (l : Int) (r : String) :
    Nat → TorrentLimitState → TorrentLimitState × Nat
  | 0, st => (st, 0)
  | n + 1, st =>
    let step := apply_limit st hash l r true
    let rest := apply_limit_times hash l r n step.1
    (rest.1, step.2.length + rest.2)

/-! ### Helper lemmas -/

lemma safe_div_eq_div (a b d : ℚ) (hb : 1 ≤ b) : safe_div a b d = a / b := by
  have h0 : ¬(b = 0 ∨ |b| < 1 / 10000000000) := by
    push_neg
    refine ⟨by linarith, ?_⟩
    rw [abs_of_pos (by linarith)]
    linarith
  unfold safe_div
  exact if_neg h0

lemma apply_limit_times_stable (h : String) (l : Int) (r : String) (m : ℕ)
    (st : TorrentLimitState) (hst : st.last_limit = l) :
    apply_limit_times h l r m st = (st, 0) := by
  induction m with
  | zero => rfl
  | succ n ih =>
    have hstep : apply_limit st h l r true = (st, []) := by
      simp [apply_limit, hst]
    simp [apply_limit_times, hstep, ih]

lemma StateTable.find?_insert (t : StateTable) (h h' : String)
    (s : TorrentLimitState) :
    (t.insert h s).find? h' = if h = h' then some s else t.find? h' := by
  induction t with
  | nil =>
    by_cases hh : h = h' <;> simp [StateTable.insert, StateTable.find?, hh]
  | cons kv rest ih =>
    obtain ⟨k, v⟩ := kv
    by_cases hk : k = h
    · subst hk
      by_cases hh : k = h' <;> simp [StateTable.insert, StateTable.find?, hh]
    · by_cases hh : k = h'
      · subst hh
        simp [StateTable.insert, StateTable.find?, hk, Ne.symm hk]
      · simp [StateTable.insert, StateTable.find?, hk, hh, ih]

lemma StateTable.find?_insert_isSome (t : StateTable) (h h' : String)
    (s : TorrentLimitState) (hs : (t.find? h').isSome) :
    ((t.insert h s).find? h').isSome := by
  rw [StateTable.find?_insert]
  split_ifs with hk
  · simp
  · exact hs

lemma _process_torrent_mono (states : StateTable) (inst : Int)
    (torrent : TorrentInfo) (rule : Rule) (env : OracleEnv) (ok : Bool)
    (now : ℚ) (h : String) (hsome : (states.find? h).isSome) :
    ((_process_torrent states inst torrent rule env ok now).states.find? h).isSome := by
  unfold _process_torrent
  dsimp only
  split
  · split
    · exact StateTable.find?_insert_isSome _ _ _ _ hsome
    · exact hsome
  · split
    · exact StateTable.find?_insert_isSome _ _ _ _
        (StateTable.find?_insert_isSome _ _ _ _ hsome)
    · exact StateTable.find?_insert_isSome _ _ _ _ hsome

lemma oracle_site_state (env : OracleEnv) (s : TorrentLimitState) :
    (oracle_site env s).2 = s ∨
    ∃ t sid, (oracle_site env s).2 = { s with tid := some t, site_id := sid } := by
  unfold oracle_site
  by_cases ha : env.helper_available
  · rw [if_pos ha]
    dsimp only
    by_cases ht : s.tid.isNone
    · rw [if_pos ht]
      rcases he : env.search_tid with _ | ⟨t, sid⟩
      · left
        simp only [he]
        split <;> rfl
      · right
        refine ⟨t, sid, ?_⟩
        simp only [he]
        split <;> rfl
    · rw [if_neg ht]
      left
      split <;> rfl
  · rw [if_neg ha]
    left
    rfl

lemma oracle_site_reannounce_time (env : OracleEnv) (s : TorrentLimitState) :
    (oracle_site env s).2.reannounce_time = s.reannounce_time := by
  rcases oracle_site_state env s with h | ⟨t, sid, h⟩ <;> rw [h]

lemma oracle_site_cached_time_left (env : OracleEnv) (s : TorrentLimitState) :
    (oracle_site env s).2.cached_time_left = s.cached_time_left := by
  rcases oracle_site_state env s with h | ⟨t, sid, h⟩ <;> rw [h]

lemma _get_reannounce_time_state_shape (env : OracleEnv) (s : TorrentLimitState)
    (now : ℚ) :
    (_get_reannounce_time env s now).2.2 = (oracle_site env s).2 ∨
    ∃ r, (_get_reannounce_time env s now).2.2
      = { (oracle_site env s).2 with reannounce_time := now + r } := by
  unfold _get_reannounce_time
  dsimp only
  rcases h1 : (oracle_site env s).1 with _ | r
  · simp only [h1]
    rcases h2 : env.qb_reannounce with _ | q
    · simp only [h2]
      split <;> left <;> rfl
    · by_cases hq : 0 < q ∧ q < 86400
      · simp only [h2, if_pos hq]
        exact Or.inr ⟨q, rfl⟩
      · simp only [h2, if_neg hq]
        split <;> left <;> rfl
  · by_cases hr : r > 0
    · simp only [h1, if_pos hr]
      exact Or.inl trivial
    · simp only [h1, if_neg hr]
      rcases h2 : env.qb_reannounce with _ | q
      · simp only [h2]
        split <;> left <;> rfl
      · by_cases hq : 0 < q ∧ q < 86400
        · simp only [h2, if_pos hq]
          exact Or.inr ⟨q, rfl⟩
        · simp only [h2, if_neg hq]
          split <;> left <;> rfl

lemma oracle_cycle_synced (env : OracleEnv) (s : TorrentLimitState) (now : ℚ) :
    (_get_reannounce_time env s now).2.2.cycle_synced = s.cycle_synced := by
  rcases _get_reannounce_time_state_shape env s now with h | ⟨r, h⟩ <;>
    rcases oracle_site_state env s with h2 | ⟨t, sid, h2⟩ <;> rw [h, h2]

lemma oracle_cached_time_left (env : OracleEnv) (s : TorrentLimitState) (now : ℚ) :
    (_get_reannounce_time env s now).2.2.cached_time_left = s.cached_time_left := by
  rcases _get_reannounce_time_state_shape env s now with h | ⟨r, h⟩ <;>
    rcases oracle_site_state env s with h2 | ⟨t, sid, h2⟩ <;> rw [h, h2]

lemma oracle_cycle_index (env : OracleEnv) (s : TorrentLimitState) (now : ℚ) :
    (_get_reannounce_time env s now).2.2.cycle_index = s.cycle_index := by
  rcases _get_reannounce_time_state_shape env s now with h | ⟨r, h⟩ <;>
    rcases oracle_site_state env s with h2 | ⟨t, sid, h2⟩ <;> rw [h, h2]

lemma oracle_cycle_uploaded_start (env : OracleEnv) (s : TorrentLimitState)
    (now : ℚ) :
    (_get_reannounce_time env s now).2.2.cycle_uploaded_start
      = s.cycle_uploaded_start := by
  rcases _get_reannounce_time_state_shape env s now with h | ⟨r, h⟩ <;>
    rcases oracle_site_state env s with h2 | ⟨t, sid, h2⟩ <;> rw [h, h2]

lemma set_phase_phase (c : PIDController) (p : Phase) :
    (c.set_phase p).phase = p := by
  unfold PIDController.set_phase
  by_cases hp : p = c.phase
  · rw [if_neg (by simp [hp])]
    exact hp.symm
  · rw [if_pos (by simp [hp])]

lemma update_phase (c : PIDController) (t a n : ℚ) :
    ((c.update t a n).2).phase = c.phase := rfl

lemma calc_cycle_index (s : TorrentLimitState) (u : Int) (now tl : ℚ) :
    (_calculate_limit s u now tl).2.2.cycle_index = s.cycle_index := by
  unfold _calculate_limit
  dsimp only
  split <;> rfl

lemma calc_cycle_uploaded_start (s : TorrentLimitState) (u : Int) (now tl : ℚ) :
    (_calculate_limit s u now tl).2.2.cycle_uploaded_start
      = s.cycle_uploaded_start := by
  unfold _calculate_limit
  dsimp only
  split <;> rfl

lemma apply_limit_cycle_index (st : TorrentLimitState) (h : String) (l : Int)
    (r : String) (ok : Bool) :
    (apply_limit st h l r ok).1.cycle_index = st.cycle_index := by
  unfold apply_limit
  split
  · split <;> rfl
  · rfl

lemma apply_limit_cycle_uploaded_start (st : TorrentLimitState) (h : String)
    (l : Int) (r : String) (ok : Bool) :
    (apply_limit st h l r ok).1.cycle_uploaded_start
      = st.cycle_uploaded_start := by
  unfold apply_limit
  split
  · split <;> rfl
  · rfl

lemma clamp_round_spec (l : Int) (p : Phase) (hpos : 0 < clamp_round l p) :
    MIN_LIMIT ≤ clamp_round l p ∧ clamp_round l p ≤ MAX_LIMIT ∧
    (if p = Phase.finish then (1024 : Int) else 4096) ∣ clamp_round l p := by
  unfold clamp_round at hpos ⊢
  by_cases hl : l > 0
  · rw [if_pos hl] at hpos ⊢
    dsimp only
    by_cases hp : p = Phase.finish
    · rw [if_pos hp]
      rw [show Int.fdiv 1024 2 = 512 from rfl,
        Int.fdiv_eq_ediv _ (by norm_num : (0:Int) ≤ 1024)]
      refine ⟨?_, ?_, dvd_mul_left 1024 _⟩ <;>
        · unfold MIN_LIMIT MAX_LIMIT
          omega
    · rw [if_neg hp]
      rw [show Int.fdiv 4096 2 = 2048 from rfl,
        Int.fdiv_eq_ediv _ (by norm_num : (0:Int) ≤ 4096)]
      refine ⟨?_, ?_, dvd_mul_left 4096 _⟩ <;>
        · unfold MIN_LIMIT MAX_LIMIT
          omega
  · rw [if_neg hl] at hpos
    exact absurd hpos hl

lemma calc_limit_is_clamp_round (s : TorrentLimitState) (u : Int) (now tl : ℚ) :
    (_calculate_limit s u now tl).1 = -1 ∨
    ∃ l : Int, (_calculate_limit s u now tl).1 = clamp_round l (s.get_phase now) := by
  unfold _calculate_limit
  dsimp only
  split
  · left
    rfl
  · right
    exact ⟨_, rfl⟩

/-! ### Claims -/

/-- **C4, counterexample.**  The claim says a torrent with `last_activity ≤ 0`
does not satisfy a condition carrying `no_peers_time_gt`.  The code skips the
predicate entirely when `last_activity ≤ 0`, so such a torrent matches: here a
torrent with `last_activity = 0` satisfies the condition
`{no_peers_time_gt: 100}` at `now = 1000`. -/
theorem c4_counterexample :
    _check_condition { last_activity := 0 } { no_peers_time_gt := some 100 }
      0 1000 = true := by
  norm_num [_check_condition]

/-- **C4, amended.**  A condition whose only present key is `no_peers_time_gt`
matches exactly when `last_activity ≤ 0` or `now − last_activity > value`:
the predicate only rejects when `last_activity` is strictly positive and the
inactivity time is within the configured value. -/
theorem c4_amended (t : RemoveTorrent) (v : ℚ) (fs : Int) (now : ℚ) :
    _check_condition t { no_peers_time_gt := some v } fs now
      = (decide (t.last_activity ≤ 0) || decide (now - t.last_activity > v)) := by
  by_cases h : t.last_activity > 0
  · simp [_check_condition, h, not_le.mpr h]
  · have h' : t.last_activity ≤ 0 := not_lt.mp h
    simp [_check_condition, h, h']

/-- **C9, counterexample.**  The claim says the check interval and
inter-deletion sleep are always within `[30, 3600]` and `[1, 60]` even when
loaded from the store.  `_load_config` applies no clamping: a stored interval
of `10` and sleep of `0` are taken as-is, violating both lower bounds. -/
theorem c9_counterexample :
    (_load_config { auto_remove_interval := some 10,
                    auto_remove_sleep := some 0 }).check_interval = 10 ∧
    (_load_config { auto_remove_interval := some 10,
                    auto_remove_sleep := some 0 }).sleep_between = 0 := by
  constructor <;> rfl

/-- **C9, amended.**  `set_config` clamps a provided check interval to
`[30, 3600]` and a provided sleep to `[1, 60]`; `_load_config` uses the
store's integers unclamped, falling back to the defaults `60` and `5` only
when the key is missing or unparsable — so the bounds are guaranteed only for
values that went through `set_config`. -/
theorem c9_amended (cfg : RemoveConfig) (i s : Int) (sc : StoreConfig)
    (hi : sc.auto_remove_interval = none) (hs : sc.auto_remove_sleep = none) :
    (30 ≤ (set_config cfg (some i) (some s) none none none).check_interval ∧
      (set_config cfg (some i) (some s) none none none).check_interval ≤ 3600) ∧
    (1 ≤ (set_config cfg (some i) (some s) none none none).sleep_between ∧
      (set_config cfg (some i) (some s) none none none).sleep_between ≤ 60) ∧
    (_load_config sc).check_interval = 60 ∧
    (_load_config sc).sleep_between = 5 := by
  have hci : (set_config cfg (some i) (some s) none none none).check_interval
      = max 30 (min 3600 i) := by
    simp [set_config]
  have hsb : (set_config cfg (some i) (some s) none none none).sleep_between
      = max 1 (min 60 s) := by
    simp [set_config]
  refine ⟨⟨?_, ?_⟩, ⟨?_, ?_⟩, ?_, ?_⟩
  · omega
  · omega
  · omega
  · omega
  · simp [_load_config, hi]
  · simp [_load_config, hs]

/-- Witness for `c9_amended` at a concrete out-of-range input. -/
theorem c9_amended_witness :
    (30 ≤ (set_config {} (some 10000) (some 0) none none none).check_interval ∧
      (set_config {} (some 10000) (some 0) none none none).check_interval ≤ 3600) ∧
    (1 ≤ (set_config {} (some 10000) (some 0) none none none).sleep_between ∧
      (set_config {} (some 10000) (some 0) none none none).sleep_between ≤ 60) ∧
    (_load_config {}).check_interval = 60 ∧
    (_load_config {}).sleep_between = 5 :=
  c9_amended {} 10000 0 {} rfl rfl

/-- **C7, confirmed.**  `PIDController.update` computes the normalized error
`e = (target − actual)/max(target, 1)` (the `safe_div` guard can never fire
since `max target 1 ≥ 1`), `dt = now − last_time` or `1` when no previous
update time is recorded, clamps the integral to `[−0.5, 0.5]`, takes the
derivative `(e − last_e)/dt` (`0` when `dt` is not positive), and returns
`1 + kp·e + ki·I + kd·d` clamped to `[0.3, 3.0]` with gains from table P for
the current phase; `set_phase` halves the integral exactly when the phase
changes. -/
theorem c7_pid_spec (c : PIDController) (target actual now : ℚ) (p : Phase) :
    (let e := (target - actual) / max target 1
     let dt := if c.last_time > 0 then now - c.last_time else 1
     let I := clamp (c.integral + e * dt) (-(1/2)) (1/2)
     let d := if dt > 0 then (e - c.last_error) / dt else 0
     (c.update target actual now).1
        = clamp (1 + (PID_PARAMS c.phase).kp * e + (PID_PARAMS c.phase).ki * I
            + (PID_PARAMS c.phase).kd * d) (3/10) 3
      ∧ (c.update target actual now).2
        = { c with integral := I, last_error := e, last_time := now })
    ∧ (c.set_phase p).integral
        = (if p = c.phase then c.integral else c.integral * (1/2)) := by
  have hmax : (1 : ℚ) ≤ max target 1 := le_max_right _ _
  refine ⟨⟨?_, ?_⟩, ?_⟩
  · simp only [PIDController.update, safe_div_eq_div _ _ _ hmax]
  · simp only [PIDController.update, safe_div_eq_div _ _ _ hmax]
  · by_cases hp : p = c.phase
    · simp [PIDController.set_phase, hp]
    · simp [PIDController.set_phase, hp]

/-- **C5, confirmed.**  When the computed limit equals `last_limit`, the
limit-application block issues no `set_upload_limit` call; pushing the same
fresh limit on `n ≥ 1` consecutive ticks (RPC succeeding) issues exactly one
call, after which `last_limit` and `last_limit_reason` record the applied
value. -/
theorem c5_limit_idempotent (st1 st2 : TorrentLimitState) (h1 h2 : String)
    (l1 l2 : Int) (r1 r2 : String) (ok : Bool) (n : ℕ)
    (heq : l1 = st1.last_limit) (hne : l2 ≠ st2.last_limit) (hn : 1 ≤ n) :
    (apply_limit st1 h1 l1 r1 ok).2 = [] ∧
    (apply_limit_times h2 l2 r2 n st2).2 = 1 ∧
    (apply_limit_times h2 l2 r2 n st2).1.last_limit = l2 ∧
    (apply_limit_times h2 l2 r2 n st2).1.last_limit_reason = r2 := by
  refine ⟨by simp [apply_limit, heq], ?_⟩
  obtain ⟨m, rfl⟩ : ∃ m, n = m + 1 := ⟨n - 1, by omega⟩
  have hstep : apply_limit st2 h2 l2 r2 true
      = ({ st2 with last_limit := l2, last_limit_reason := r2 }, [(h2, l2)]) := by
    simp [apply_limit, hne]
  have hrest := apply_limit_times_stable h2 l2 r2 m
    { st2 with last_limit := l2, last_limit_reason := r2 } rfl
  simp [apply_limit_times, hstep, hrest]

/-- Witness for `c5_limit_idempotent`: an already-applied limit issues no
call; a fresh limit applied three times issues exactly one. -/
theorem c5_limit_idempotent_witness :
    (apply_limit { hash := "a", last_limit := 4096 } "a" 4096 "S" true).2 = [] ∧
    (apply_limit_times "b" 8192 "F" 3 { hash := "b" }).2 = 1 ∧
    (apply_limit_times "b" 8192 "F" 3 { hash := "b" }).1.last_limit = 8192 ∧
    (apply_limit_times "b" 8192 "F" 3 { hash := "b" }).1.last_limit_reason = "F" :=
  c5_limit_idempotent { hash := "a", last_limit := 4096 } { hash := "b" }
    "a" "b" 4096 8192 "S" "F" true 3 rfl (by decide) (by decide)

/-- **C8, confirmed.**  Saving a state and restoring the row is a round-trip:
a row whose age is at most 86400 s is restored with all fourteen persisted
fields verbatim and fresh estimator objects (the remaining fields take the
dataclass defaults); an older row is discarded. -/
theorem c8_persist_roundtrip (s sOld : TorrentLimitState) (upd now updOld nowOld : ℚ)
    (hkeep : now - upd ≤ 86400) (hdrop : nowOld - updOld > 86400) :
    restore_row now (_save_state s upd)
      = some { hash := s.hash, name := s.name, tracker := s.tracker,
               instance_id := s.instance_id, site_id := s.site_id, tid := s.tid,
               cycle_index := s.cycle_index, cycle_start := s.cycle_start,
               cycle_uploaded_start := s.cycle_uploaded_start,
               cycle_synced := s.cycle_synced, target_speed := s.target_speed,
               last_limit := s.last_limit, reannounce_time := s.reannounce_time,
               cached_time_left := s.cached_time_left,
               pid := PIDController.init, kalman := KalmanFilter.init } ∧
    restore_row nowOld (_save_state sOld updOld) = none := by
  constructor
  · simp [restore_row, _save_state, not_lt.mpr hkeep]
  · simp [restore_row, _save_state, hdrop]

/-- **C3, confirmed.**  Source precedence of the reannounce oracle: a site
value `> 0` wins with source `"site"` and leaves `reannounce_time` unchanged;
otherwise a client-RPC value strictly inside `(0, 86400)` wins with source
`"qb_api"` and sets `reannounce_time := now + value`; otherwise a positive
stored `reannounce_time` yields `max 0 (reannounce_time − now)` with source
`"estimated"`; otherwise the cached `cached_time_left` is returned with source
`"cached"`.  The four variable groups instantiate the four cases. -/
theorem c3_oracle_precedence
    (env1 : OracleEnv) (st1 : TorrentLimitState) (now1 : ℚ) (r1 : ℚ)
    (hsite1 : (oracle_site env1 st1).1 = some r1) (hpos1 : 0 < r1)
    (env2 : OracleEnv) (st2 : TorrentLimitState) (now2 : ℚ) (r2 : ℚ)
    (hsite2 : ∀ r, (oracle_site env2 st2).1 = some r → r ≤ 0)
    (hqb2 : env2.qb_reannounce = some r2) (hq2a : 0 < r2) (hq2b : r2 < 86400)
    (env3 : OracleEnv) (st3 : TorrentLimitState) (now3 : ℚ)
    (hsite3 : ∀ r, (oracle_site env3 st3).1 = some r → r ≤ 0)
    (hqb3 : ∀ r, env3.qb_reannounce = some r → ¬(0 < r ∧ r < 86400))
    (hrt3 : 0 < st3.reannounce_time)
    (env4 : OracleEnv) (st4 : TorrentLimitState) (now4 : ℚ)
    (hsite4 : ∀ r, (oracle_site env4 st4).1 = some r → r ≤ 0)
    (hqb4 : ∀ r, env4.qb_reannounce = some r → ¬(0 < r ∧ r < 86400))
    (hrt4 : st4.reannounce_time ≤ 0) :
    (_get_reannounce_time env1 st1 now1
        = (r1, "site", (oracle_site env1 st1).2) ∧
      (oracle_site env1 st1).2.reannounce_time = st1.reannounce_time) ∧
    _get_reannounce_time env2 st2 now2
      = (r2, "qb_api",
          { (oracle_site env2 st2).2 with reannounce_time := now2 + r2 }) ∧
    _get_reannounce_time env3 st3 now3
      = (max 0 (st3.reannounce_time - now3), "estimated",
          (oracle_site env3 st3).2) ∧
    _get_reannounce_time env4 st4 now4
      = (st4.cached_time_left, "cached", (oracle_site env4 st4).2) := by
  have siteNone : ∀ (env : OracleEnv) (st : TorrentLimitState),
      (∀ r, (oracle_site env st).1 = some r → r ≤ 0) →
      (match (oracle_site env st).1 with
        | some r => if r > 0 then some r else none
        | none => none) = (none : Option ℚ) := by
    intro env st hfail
    rcases hs : (oracle_site env st).1 with _ | r
    · rfl
    · have := hfail r hs
      simp [not_lt.mpr this]
  have qbNone : ∀ (env : OracleEnv),
      (∀ r, env.qb_reannounce = some r → ¬(0 < r ∧ r < 86400)) →
      (match env.qb_reannounce with
        | some r => if 0 < r ∧ r < 86400 then some r else none
        | none => none) = (none : Option ℚ) := by
    intro env hfail
    rcases hq : env.qb_reannounce with _ | r
    · rfl
    · have := hfail r hq
      simp [this]
  refine ⟨⟨?_, oracle_site_reannounce_time env1 st1⟩, ?_, ?_, ?_⟩
  · unfold _get_reannounce_time
    simp only [hsite1]
    rw [if_pos hpos1]
  · unfold _get_reannounce_time
    simp only [siteNone env2 st2 hsite2, hqb2]
    rw [if_pos ⟨hq2a, hq2b⟩]
  · unfold _get_reannounce_time
    simp only [siteNone env3 st3 hsite3, qbNone env3 hqb3]
    rw [if_pos (show (0:ℚ) < (oracle_site env3 st3).2.reannounce_time by
        rw [oracle_site_reannounce_time env3 st3]; exact hrt3),
      oracle_site_reannounce_time env3 st3]
  · unfold _get_reannounce_time
    simp only [siteNone env4 st4 hsite4, qbNone env4 hqb4]
    rw [if_neg (show ¬(0:ℚ) < (oracle_site env4 st4).2.reannounce_time by
        rw [oracle_site_reannounce_time env4 st4]; exact not_lt.mpr hrt4)]

/-- Witness for `c3_oracle_precedence`: the spec's seed scenario (site 500
wins over qb 1200 with `reannounce_time` untouched) plus a qb-api win, an
estimation fallback, and a cache fallback. -/
theorem c3_oracle_precedence_witness :
    (_get_reannounce_time
        { helper_available := true, helper_reannounce := some 500,
          qb_reannounce := some 1200 }
        { hash := "a", tid := some 7, reannounce_time := 1000 } 100
        = (500, "site",
            (oracle_site
              { helper_available := true, helper_reannounce := some 500,
                qb_reannounce := some 1200 }
              { hash := "a", tid := some 7, reannounce_time := 1000 }).2) ∧
      (oracle_site
          { helper_available := true, helper_reannounce := some 500,
            qb_reannounce := some 1200 }
          { hash := "a", tid := some 7, reannounce_time := 1000 }).2.reannounce_time
        = ({ hash := "a", tid := some 7,
             reannounce_time := 1000 } : TorrentLimitState).reannounce_time) ∧
    _get_reannounce_time { qb_reannounce := some 1200 }
        { hash := "b", reannounce_time := 900 } 50
      = (1200, "qb_api",
          { (oracle_site { qb_reannounce := some 1200 }
              { hash := "b", reannounce_time := 900 }).2 with
            reannounce_time := 50 + 1200 }) ∧
    _get_reannounce_time {} { hash := "c", reannounce_time := 900 } 100
      = (max 0
            (({ hash := "c", reannounce_time := 900 } :
                TorrentLimitState).reannounce_time - 100),
          "estimated", (oracle_site {} { hash := "c", reannounce_time := 900 }).2) ∧
    _get_reannounce_time {} { hash := "d" } 5
      = (({ hash := "d" } : TorrentLimitState).cached_time_left, "cached",
          (oracle_site {} { hash := "d" }).2) :=
  c3_oracle_precedence
    { helper_available := true, helper_reannounce := some 500,
      qb_reannounce := some 1200 }
    { hash := "a", tid := some 7, reannounce_time := 1000 } 100 500
    rfl (by norm_num)
    { qb_reannounce := some 1200 } { hash := "b", reannounce_time := 900 } 50 1200
    (fun r h => nomatch h) rfl (by norm_num) (by norm_num)
    {} { hash := "c", reannounce_time := 900 } 100
    (fun r h => nomatch h) (fun r h => nomatch h) (by norm_num)
    {} { hash := "d" } 5
    (fun r h => nomatch h) (fun r h => nomatch h) (by norm_num)

/-- Tick input for the C1 counterexample: a synced state that has already
recorded 1000 uploaded bytes at cycle start. -/
def c1c_state : TorrentLimitState :=
  { hash := "h", cycle_synced := true, cached_time_left := 0,
    cycle_uploaded_start := 1000 }

/-- **C1, counterexample.**  The claim says a tick observing a reported
uploaded count lower than `cycle_uploaded_start` resets the cycle
(`cycle_index += 1`, re-anchor).  The code never compares the reported
uploaded count against `cycle_uploaded_start`: here the client reports
`uploaded = 0 < 1000 = cycle_uploaded_start`, yet after the tick
`cycle_index` is still `0` and `cycle_uploaded_start` still `1000` — so the
state also keeps violating `cycle_uploaded_start ≤ current_uploaded`. -/
theorem c1_counterexample :
    ((_process_torrent [("h", c1c_state)] 0 { hash := "h" } {} {} true
        50).states.find? "h").map
      (fun s => (s.cycle_index, s.cycle_uploaded_start))
      = some (0, 1000) ∧
    ({ hash := "h" } : TorrentInfo).uploaded < c1c_state.cycle_uploaded_start := by
  refine ⟨?_, by norm_num [c1c_state]⟩
  norm_num [c1c_state, _process_torrent, fresh_state, StateTable.find?,
    StateTable.insert, _get_reannounce_time, oracle_site, py_truthy_tid,
    _calculate_limit, TorrentLimitState.get_phase, get_phase,
    TorrentLimitState.get_cycle_uploaded, TorrentLimitState.new_cycle,
    PIDController.set_phase, PIDController.update, PIDController.init,
    PIDController.reset, KalmanFilter.init, KalmanFilter.update,
    KalmanFilter.predict_upload, PID_PARAMS, safe_div, clamp, py_trunc,
    clamp_round, apply_limit, FINISH_TIME, STEADY_TIME, MIN_LIMIT, MAX_LIMIT,
    min_def, max_def, show Phase.finish ≠ Phase.warmup from by decide]

/-- **C1, amended.**  `get_cycle_uploaded` clamps at zero
(`max 0 (current_uploaded − cycle_uploaded_start)`), but a decrease in the
reported uploaded count does not itself trigger a cycle reset: on a tick whose
oracle answer does not satisfy the jump test
(`cycle_synced ∧ time_left > cached_time_left + 30`), `cycle_index` and
`cycle_uploaded_start` are left unchanged even when the reported uploaded
count is lower than `cycle_uploaded_start`. -/
theorem c1_no_reset_on_uploaded_decrease
    (states : StateTable) (inst : Int) (torrent : TorrentInfo) (rule : Rule)
    (env : OracleEnv) (ok : Bool) (now : ℚ) (st : TorrentLimitState) (u2 : Int)
    (hfind : states.find? torrent.hash = some st)
    (hdec : torrent.uploaded < st.cycle_uploaded_start)
    (hnojump : ¬(st.cycle_synced ∧
      (_get_reannounce_time env
        { st with
          target_speed := py_trunc (rule.target_speed_kib * 1024 * rule.safety_margin),
          tracker := torrent.tracker,
          instance_id := inst,
          kalman := st.kalman.update torrent.upspeed now } now).1
        > st.cached_time_left + 30)) :
    ((_process_torrent states inst torrent rule env ok now).states.find?
        torrent.hash).map (fun s => (s.cycle_index, s.cycle_uploaded_start))
      = some (st.cycle_index, st.cycle_uploaded_start) ∧
    0 ≤ st.get_cycle_uploaded u2 := by
  refine ⟨?_, le_max_left 0 _⟩
  unfold _process_torrent
  dsimp only
  simp only [hfind, Option.isNone_some, Bool.false_eq_true, if_false]
  rw [StateTable.find?_insert, if_pos rfl]
  simp only [Option.map_some', Option.some.injEq, Prod.mk.injEq]
  simp only [oracle_cycle_synced, oracle_cached_time_left]
  rcases hsync : st.cycle_synced with _ | _
  · simp only [hsync, Bool.false_and, Bool.false_eq_true, if_false]
    constructor <;>
      simp [apply_ite TorrentLimitState.cycle_index,
        apply_ite TorrentLimitState.cycle_uploaded_start,
        apply_limit_cycle_index, apply_limit_cycle_uploaded_start,
        calc_cycle_index, calc_cycle_uploaded_start,
        oracle_cycle_index, oracle_cycle_uploaded_start]
  · have hngt : ¬((_get_reannounce_time env
        { st with
          target_speed := py_trunc (rule.target_speed_kib * 1024 * rule.safety_margin),
          tracker := torrent.tracker,
          instance_id := inst,
          kalman := st.kalman.update torrent.upspeed now } now).1
        > st.cached_time_left + 30) :=
      fun hgt => hnojump ⟨hsync, hgt⟩
    simp only [hsync] at hngt
    simp only [hsync, Bool.true_and, decide_eq_false hngt, Bool.false_eq_true,
      if_false]
    constructor <;>
      simp [apply_ite TorrentLimitState.cycle_index,
        apply_ite TorrentLimitState.cycle_uploaded_start,
        apply_limit_cycle_index, apply_limit_cycle_uploaded_start,
        calc_cycle_index, calc_cycle_uploaded_start,
        oracle_cycle_index, oracle_cycle_uploaded_start]

/-- Witness for `c1_no_reset_on_uploaded_decrease`: a cached-oracle tick with
the reported uploaded count 0 below the recorded cycle anchor 1000. -/
theorem c1_no_reset_witness :
    ((_process_torrent [("h", c1c_state)] 0 { hash := "h" } {} {} true
        50).states.find? "h").map
      (fun s => (s.cycle_index, s.cycle_uploaded_start))
      = some (c1c_state.cycle_index, c1c_state.cycle_uploaded_start) ∧
    0 ≤ c1c_state.get_cycle_uploaded 0 :=
  c1_no_reset_on_uploaded_decrease [("h", c1c_state)] 0 { hash := "h" } {} {}
    true 50 c1c_state 0 rfl (by norm_num [c1c_state])
    (by
      intro hJ
      exact absurd hJ.2 (by
        norm_num [c1c_state, _get_reannounce_time, oracle_site, py_truthy_tid,
          KalmanFilter.init, KalmanFilter.update, py_trunc]))

/-- Tick input for the C2 counterexample: a state whose stale
`reannounce_time` (15 minutes out) disagrees with the fresh site-scraper
answer of 20 s. -/
def c2c_state : TorrentLimitState :=
  { hash := "h", cycle_synced := true, reannounce_time := 1000,
    cached_time_left := 50, tid := some 1 }

/-- **C2, counterexample.**  The claim says the phase is computed from the
`time_left` returned by the oracle on the same tick, so a site answer of
`20 ≤ 30` must give `finish`.  But `_calculate_limit` derives the phase from
the state (`reannounce_time − now` when `reannounce_time > 0`): with a stale
`reannounce_time = 1000` at `now = 100` the phase set on the PID is `catch`
(time left 900), even though the oracle returned `20` this tick (recorded in
`cached_time_left`). -/
theorem c2_counterexample :
    ((_process_torrent [("h", c2c_state)] 0 { hash := "h" }
        { target_speed_kib := 100, safety_margin := 1 }
        { helper_available := true, helper_reannounce := some 20 } true
        100).states.find? "h").map
      (fun s => (s.pid.phase, s.cached_time_left))
      = some (Phase.catch, 20) ∧ (20 : ℚ) ≤ 30 ∧ Phase.catch ≠ Phase.finish := by
  refine ⟨?_, by norm_num, by decide⟩
  norm_num [c2c_state, _process_torrent, fresh_state, StateTable.find?,
    StateTable.insert, _get_reannounce_time, oracle_site, py_truthy_tid,
    _calculate_limit, TorrentLimitState.get_phase, get_phase,
    TorrentLimitState.get_cycle_uploaded, TorrentLimitState.new_cycle,
    PIDController.set_phase, PIDController.update, PIDController.init,
    PIDController.reset, KalmanFilter.init, KalmanFilter.update,
    KalmanFilter.predict_upload, PID_PARAMS, safe_div, clamp, py_trunc,
    clamp_round, apply_limit, FINISH_TIME, STEADY_TIME, MIN_LIMIT, MAX_LIMIT,
    min_def, max_def, show Phase.catch ≠ Phase.warmup from by decide,
    show Phase.catch ≠ Phase.finish from by decide]

/-- **C2, amended.**  The phase is computed not from the oracle's same-tick
`time_left` but from the state's own view of the time left: `warmup` when not
`cycle_synced`, otherwise the thresholds 30/120 applied to
`max 0 (reannounce_time − now)` when `reannounce_time > 0` and to
`cached_time_left` otherwise (these coincide with the oracle value except on
the site path, which does not refresh `reannounce_time`).  This phase is the
one `_calculate_limit` sets on the PID. -/
theorem c2_phase_from_state (st : TorrentLimitState) (u : Int) (now tl : ℚ) :
    (st.get_phase now
      = (if !st.cycle_synced then Phase.warmup
         else if (if st.reannounce_time > 0 then max 0 (st.reannounce_time - now)
                  else st.cached_time_left) ≤ 30 then Phase.finish
         else if (if st.reannounce_time > 0 then max 0 (st.reannounce_time - now)
                  else st.cached_time_left) ≤ 120 then Phase.steady
         else Phase.catch)) ∧
    (_calculate_limit st u now tl).2.2.pid.phase = st.get_phase now := by
  constructor
  · cases hsync : st.cycle_synced <;>
      simp [TorrentLimitState.get_phase, get_phase, hsync, FINISH_TIME,
        STEADY_TIME]
  · unfold _calculate_limit
    dsimp only
    split
    · exact set_phase_phase _ _
    · rw [update_phase]
      exact set_phase_phase _ _

/-- **C6, counterexample.**  The claim says every non-`−1` result of the rate
computation lies in `[MIN_LIMIT, MAX_LIMIT]`.  But the clamp-and-round block
only fires for `limit > 0`: a finish-phase tick whose upload target is already
met (`required_speed = 0`) returns limit `0`, which is neither `−1` nor
`≥ MIN_LIMIT`. -/
theorem c6_counterexample :
    (_calculate_limit { hash := "h", cycle_synced := true, reannounce_time := 20,
                        target_speed := 100 } 1000000 10 10).1 = 0 ∧
    ((0 : Int) ≠ -1 ∧ (0 : Int) < MIN_LIMIT) := by
  constructor
  · norm_num [_calculate_limit, TorrentLimitState.get_phase, get_phase,
      TorrentLimitState.get_cycle_uploaded, PIDController.set_phase,
      PIDController.update, PIDController.init, KalmanFilter.init,
      KalmanFilter.predict_upload, PID_PARAMS, safe_div, clamp, py_trunc,
      clamp_round, FINISH_TIME, STEADY_TIME, MIN_LIMIT, MAX_LIMIT]
  · constructor
    · decide
    · decide

/-- **C6, amended.**  Whenever the rate computation returns a *positive*
limit, that limit lies in `[MIN_LIMIT, MAX_LIMIT] = [4096, 500·1024·1024]`
and is an exact multiple of the step (`1024` in finish phase, else `4096`),
the half-up rounding being applied after the clamp; non-positive returns
(`−1` for uncapped/announcing, and `0` when the truncated product vanishes)
are passed through untouched. -/
theorem c6_limit_bounds (s : TorrentLimitState) (u : Int) (now tl : ℚ)
    (hpos : 0 < (_calculate_limit s u now tl).1) :
    MIN_LIMIT ≤ (_calculate_limit s u now tl).1 ∧
    (_calculate_limit s u now tl).1 ≤ MAX_LIMIT ∧
    (if s.get_phase now = Phase.finish then (1024 : Int) else 4096) ∣
      (_calculate_limit s u now tl).1 := by
  rcases calc_limit_is_clamp_round s u now tl with h | ⟨l, h⟩
  · rw [h] at hpos
    exact absurd hpos (by decide)
  · rw [h] at hpos ⊢
    exact clamp_round_spec l _ hpos

/-- A concrete steady-phase rate-computation input used to witness
`c6_limit_bounds`. -/
def c6w_state : TorrentLimitState :=
  { hash := "h", cycle_synced := true, cached_time_left := 100,
    target_speed := 1024 }

set_option maxHeartbeats 2000000 in
/-- Witness for `c6_limit_bounds`: a steady-phase tick that computes a
positive limit. -/
theorem c6_limit_bounds_witness :
    MIN_LIMIT ≤ (_calculate_limit c6w_state 0 100 100).1 ∧
    (_calculate_limit c6w_state 0 100 100).1 ≤ MAX_LIMIT ∧
    (if c6w_state.get_phase 100 = Phase.finish then (1024 : Int) else 4096) ∣
      (_calculate_limit c6w_state 0 100 100).1 :=
  c6_limit_bounds c6w_state 0 100 100
    (by norm_num [c6w_state, _calculate_limit, TorrentLimitState.get_phase,
      get_phase, TorrentLimitState.get_cycle_uploaded, PIDController.set_phase,
      PIDController.update, PIDController.init, KalmanFilter.init,
      KalmanFilter.predict_upload, PID_PARAMS, safe_div, clamp, py_trunc,
      clamp_round, FINISH_TIME, STEADY_TIME, MIN_LIMIT, MAX_LIMIT,
      min_def, max_def,
      show Phase.steady ≠ Phase.warmup from by decide,
      show Phase.steady ≠ Phase.finish from by decide,
      show Int.fdiv 4096 2 = 2048 from by decide,
      show Int.fdiv 6144 4096 = 1 from by decide])

/-- **C10, confirmed.**  No operation of the governor loop removes an entry
from the per-torrent state table: `_process_torrent` only inserts or mutates
entries, so after processing any batch of torrents every hash tracked before
is still tracked. -/
theorem c10_states_monotone (states : StateTable) (items : List TickItem)
    (now : ℚ) (h : String) (hsome : (states.find? h).isSome) :
    ((_process_all states items now).states.find? h).isSome := by
  induction items generalizing states with
  | nil => exact hsome
  | cons item rest ih =>
    rcases hs : item.should with _ | _ <;> rcases hr : item.rule with _ | rule <;>
      simp only [_process_all, hs, hr] <;>
      first
        | exact ih states hsome
        | exact ih _ (_process_torrent_mono states item.instance_id item.torrent
            rule item.env item.rpc_ok now h hsome)

/-- Witness for `c10_states_monotone`: a tracked hash survives a tick that
processes another torrent. -/
theorem c10_states_monotone_witness :
    ((_process_all [("a", { hash := "a" })]
        [{ instance_id := 1, torrent := { hash := "b" }, should := true,
           rule := some {}, env := {}, rpc_ok := true }] 0).states.find?
      "a").isSome :=
  c10_states_monotone [("a", { hash := "a" })]
    [{ instance_id := 1, torrent := { hash := "b" }, should := true,
       rule := some {}, env := {}, rpc_ok := true }] 0 "a" (by decide)

/-- Witness for `c8_persist_roundtrip` at a fresh row (age 100 s) and a stale
row (age 100000 s). -/
theorem c8_persist_roundtrip_witness :
    restore_row 200 (_save_state { hash := "a" } 100)
      = some { hash := "a", name := "", tracker := "", instance_id := 0,
               site_id := none, tid := none, cycle_index := 0, cycle_start := 0,
               cycle_uploaded_start := 0, cycle_synced := false,
               target_speed := 50 * 1024 * 1024, last_limit := -1,
               reannounce_time := 0, cached_time_left := 1800,
               pid := PIDController.init, kalman := KalmanFilter.init } ∧
    restore_row 100100 (_save_state { hash := "b" } 100) = none :=
  c8_persist_roundtrip { hash := "a" } { hash := "b" } 100 200 100 100100
    (by norm_num) (by norm_num)

end PtQbit
